import Mathlib

/-!
Shallow embedding of the vbase-py-tools reconciliation engine
(`tools/commit_s3_objects.py`, `tools/verify_s3_objects.py`, `tools/utils.py`).

External collaborators (the S3 blob store, the vBase ledger writer and the
indexing-service reader) appear as function parameters at the I/O boundary:
  * the store's paginated listing response is a `List S3Page` input;
  * `store : String → Except String String` models a combined
    `s3.get_object` fetch + UTF-8 decode of one key, which either yields the
    decoded text or raises (any exception);
  * `getCid : String → String` models `VBaseStringObject.get_cid_for_data`;
  * `ledgerWrite : List String → LedgerResult` models
    `vbc.add_set_objects_batch` for one batch of object CIDs.
Timestamps (`pandas.Timestamp`) are modelled as `Int`.
-/

namespace VBaseTools

/-- An S3 object listing entry: `Key`, `LastModified`, `Size`
(the fields of a `list_objects_v2` `Contents` record used by the tools). -/
structure S3Object where
  key : String
  lastModified : Int
  size : Nat
deriving Repr, DecidableEq

/-- One page of a `list_objects_v2` paginator response; `contents = none`
models a page without a `"Contents"` field. -/
structure S3Page where
  contents : Option (List S3Object)
deriving Repr, DecidableEq

/-- Embedding of `utils.get_all_matching_objects`: concatenate the `Contents` of every
page (skipping pages without one), then keep only objects with `Size > 0`. -/
def get_all_matching_objects (pages : List S3Page) : List S3Object :=
  (pages.foldl
    (fun acc p =>
      match p.contents with
      | some c => acc ++ c
      | none => acc)
    []).filter (fun o => o.size > 0)

/-- Embedding of `utils.read_s3_object`: `file_content` starts as `""`; the fetch+decode
is attempted inside a `try`, and any exception is caught and logged, leaving
`file_content = ""`, which is returned. -/
def read_s3_object (store : String → Except String String) (key : String) :
    String :=
  match store key with
  | Except.ok data => data
  | Except.error _ => ""

/-- Post-listing selection: `none` models prefix mode (the prefix was already
applied by the store listing), `some m` models pattern mode
(`fnmatch.fnmatch(obj["Key"], key_pattern)` as an abstract key predicate).
Both `commit_s3_objects` and `verify_s3_objects` share this shape. -/
def enumerate_objects (pages : List S3Page)
    (key_pattern : Option (String → Bool)) : List S3Object :=
  match key_pattern with
  | none => get_all_matching_objects pages
  | some m => (get_all_matching_objects pages).filter (fun o => m o.key)

/-- The comparator of `objs.sort(key=lambda x: x["Key"])`. -/
def byKey (a b : S3Object) : Bool := decide (a.key ≤ b.key)

/-- The comparator of `objs.sort(key=lambda x: x["LastModified"])`. -/
def byLastModified (a b : S3Object) : Bool :=
  decide (a.lastModified ≤ b.lastModified)

/-- A ledger commitment receipt as read back by
`Web3HTTPIndexingService.find_user_set_objects` / returned by ledger writes:
the `"user"`, `"objectCid"` and `"timestamp"` fields the tools touch. -/
structure CommitmentReceipt where
  user : String
  objectCid : String
  timestamp : Int
deriving Repr, DecidableEq

/-- Structured form of the strings `verify_s3_objects` appends to
`validation_log`; `renderEntry` recovers the exact f-string text. -/
inductive VEntry where
  | cardinalityMismatch (numObjects numCommitments : Nat)
  | cidMismatch (index : Nat) (objectHash commitmentHash : String)
  | timestampMismatch (index : Nat) (objectTs commitmentTs : Int)
deriving Repr, DecidableEq

/-- The f-string each `validation_log.append` call produces. -/
def renderEntry : VEntry → String
  | VEntry.cardinalityMismatch n m =>
      s!"Mismatched numbers of objects and commitments: objects = {n}, commitments = {m}"
  | VEntry.cidMismatch i h c =>
      s!"Mismatched entry: index = {i}, S3 object hash = {h}, commitment object hash = {c}"
  | VEntry.timestampMismatch i t c =>
      s!"Mismatched entry timestamps: index = {i}, S3 object timestamp = {t}, commitment object timestamp = {c}"

/-- The `for i, obj in enumerate(objs)` reconciliation loop of
`verify_s3_objects`: at index `i` it appends a CID-mismatch entry when
`commitment_receipts[i]["objectCid"] != hashes[i]` and a timestamp-mismatch
entry when `pd.Timestamp(receipt["timestamp"]) - ts[i] < pd.Timedelta("0 days")`,
then moves to index `i + 1`. -/
def reconcile : Nat → List String → List Int → List CommitmentReceipt →
    List VEntry
  | _, [], _, _ => []
  | _, _ :: _, [], _ => []
  | _, _ :: _, _ :: _, [] => []
  | i, h :: hs, t :: tss, r :: rs =>
      (if r.objectCid ≠ h then [VEntry.cidMismatch i h r.objectCid] else []) ++
      (if r.timestamp - t < 0 then [VEntry.timestampMismatch i t r.timestamp]
       else []) ++
      reconcile (i + 1) hs tss rs

/-- The object sequence the verify pipeline reconciles:
the enumerated listing after `objs.sort(key=lambda x: x["LastModified"])`. -/
def verifyObjs (pages : List S3Page) (key_pattern : Option (String → Bool)) :
    List S3Object :=
  (enumerate_objects pages key_pattern).mergeSort byLastModified

/-- The `hashes` list of `verify_s3_objects`:
`VBaseStringObject.get_cid_for_data(read_s3_object(...))` per sorted object. -/
def verifyHashes (pages : List S3Page) (key_pattern : Option (String → Bool))
    (store : String → Except String String) (getCid : String → String) :
    List String :=
  (verifyObjs pages key_pattern).map (fun o => getCid (read_s3_object store o.key))

/-- The `ts` list of `verify_s3_objects`:
`pd.Timestamp(obj["LastModified"])` per sorted object. -/
def verifyTs (pages : List S3Page) (key_pattern : Option (String → Bool)) :
    List Int :=
  (verifyObjs pages key_pattern).map (fun o => o.lastModified)

/-- Embedding of `verify_s3_objects`, structured-log form. `registered` is the result of
`vbc.user_set_exists(user_address, set_cid)`; `commitment_receipts` is the
indexing service's time-ordered receipt history for the dataset. Mirrors the
source: unregistered datasets return `(status, validation_log)` while both
still hold their initial values `False` and `[]`; a cardinality mismatch
returns early with the single counts entry; otherwise the reconciliation
loop runs and `status` becomes `True` iff `len(validation_log) == 0`. -/
def verify_s3_objects (registered : Bool) (pages : List S3Page)
    (key_pattern : Option (String → Bool))
    (store : String → Except String String) (getCid : String → String)
    (commitment_receipts : List CommitmentReceipt) : Bool × List VEntry :=
  if registered then
    let hashes := verifyHashes pages key_pattern store getCid
    if hashes.length ≠ commitment_receipts.length then
      (false,
        [VEntry.cardinalityMismatch hashes.length commitment_receipts.length])
    else
      let log := reconcile 0 hashes (verifyTs pages key_pattern)
        commitment_receipts
      (log.isEmpty, log)
  else
    (false, [])

/-- The function `verify_s3_objects` with the log rendered to the source's strings
(the actual `List[str]` return value). -/
def verify_s3_objects_str (registered : Bool) (pages : List S3Page)
    (key_pattern : Option (String → Bool))
    (store : String → Except String String) (getCid : String → String)
    (commitment_receipts : List CommitmentReceipt) : Bool × List String :=
  let r := verify_s3_objects registered pages key_pattern store getCid
    commitment_receipts
  (r.1, r.2.map renderEntry)

/-- Batch size when committing batches of objects
(`_COMMIT_OBJECT_BATCH_SIZE` in `commit_s3_objects.py`). -/
def _COMMIT_OBJECT_BATCH_SIZE : Nat := 20

/-- The batch slices `objs[i : i + _COMMIT_OBJECT_BATCH_SIZE]` visited by
`for i in range(0, len(objs), _COMMIT_OBJECT_BATCH_SIZE)` in
`commit_s3_object_list`. -/
def batches {α : Type} (objs : List α) : List (List α) :=
  match objs with
  | [] => []
  | x :: xs =>
      (x :: xs).take _COMMIT_OBJECT_BATCH_SIZE ::
        batches ((x :: xs).drop _COMMIT_OBJECT_BATCH_SIZE)
termination_by objs.length
decreasing_by simp [_COMMIT_OBJECT_BATCH_SIZE]; omega

/-- Outcome of one `vbc.add_set_objects_batch` call: either the list of
receipt dicts for the submitted CIDs, or a raised exception (its message). -/
inductive LedgerResult where
  | ok (receipts : List CommitmentReceipt)
  | error (msg : String)
deriving Repr

/-- Embedding of `commit_s3_object_list`: per batch, build `object_cids` by reading and
content-addressing each object, then attempt one `add_set_objects_batch`
call inside `try`; on success `commitment_receipts += receipts`, on a caught
exception `commitment_receipt` stays the empty dict `{}` so
`commitment_receipts += {}` appends nothing, and the loop continues.
The second component instruments the number of ledger write calls made
(one per batch, error or not). -/
def commit_s3_object_list (ledgerWrite : List String → LedgerResult)
    (store : String → Except String String) (getCid : String → String)
    (objs : List S3Object) : List CommitmentReceipt × Nat :=
  (batches objs).foldl
    (fun acc batch =>
      let object_cids := batch.map (fun o => getCid (read_s3_object store o.key))
      match ledgerWrite object_cids with
      | LedgerResult.ok rs => (acc.1 ++ rs, acc.2 + 1)
      | LedgerResult.error _ => (acc.1, acc.2 + 1))
    ([], 0)

/-- The object sequence the commit pipeline batches in prefix/pattern mode:
the enumerated listing after `objs.sort(key=lambda x: x["Key"])`. -/
def commitObjs (pages : List S3Page) (key_pattern : Option (String → Bool)) :
    List S3Object :=
  (enumerate_objects pages key_pattern).mergeSort byKey

/-- The selection branch taken by `commit_s3_objects` after argument
validation: a single `--key` commit (whose one `vbc.add_set_object` call
either returns a receipt or raises), or a `--key_prefix`/`--key_pattern`
commit over a store listing. -/
inductive CommitSelection where
  | single (writeResult : Except String CommitmentReceipt)
  | multi (pages : List S3Page) (key_pattern : Option (String → Bool))

/-- A Python exception raised by the final summary construction of
`commit_s3_objects`. -/
inductive PyError where
  | indexError
  | keyError (key : String)
deriving Repr, DecidableEq

/-- The receipt-producing tail of `commit_s3_objects` (after dataset
registration): in single mode, `commitment_receipt = {}` then the
`add_set_object` result is appended — `none` models the empty dict left by a
caught write exception; in multi mode the sorted listing goes through
`commit_s3_object_list`. The final `dataset_info` construction evaluates
`commitment_receipts[0]["user"]`: on an empty list this raises `IndexError`,
on a leading empty dict it raises `KeyError: user`; otherwise the owner is
read and the receipt list is returned. -/
def commit_s3_objects (sel : CommitSelection)
    (ledgerWrite : List String → LedgerResult)
    (store : String → Except String String) (getCid : String → String) :
    Except PyError (String × List (Option CommitmentReceipt)) :=
  let commitment_receipts : List (Option CommitmentReceipt) :=
    match sel with
    | CommitSelection.single wres =>
        [match wres with
         | Except.ok r => some r
         | Except.error _ => none]
    | CommitSelection.multi pages kp =>
        ((commit_s3_object_list ledgerWrite store getCid
            (commitObjs pages kp)).1).map some
  match commitment_receipts with
  | [] => Except.error PyError.indexError
  | none :: _ => Except.error (PyError.keyError "user")
  | some r :: rest => Except.ok (r.user, some r :: rest)

/-- The receipts one batch contributes: the ledger's receipt list if the
write succeeded, nothing if the write raised (the caught-exception path
leaves `commitment_receipt = {}`, and `list += {}` appends nothing). -/
def batchReceipts (ledgerWrite : List String → LedgerResult)
    (store : String → Except String String) (getCid : String → String)
    (batch : List S3Object) : List CommitmentReceipt :=
  match ledgerWrite (batch.map fun o => getCid (read_s3_object store o.key)) with
  | LedgerResult.ok rs => rs
  | LedgerResult.error _ => []

/-! ### Helper lemmas -/

theorem mem_ite_singleton {α : Type} {P : Prop} [Decidable P] {a x : α} :
    a ∈ (if P then [x] else ([] : List α)) ↔ P ∧ a = x := by
  split <;> simp_all

/-- Which CID-mismatch entries the reconciliation loop started at index `i`
produces: exactly one per position `k` whose receipt CID differs from the
object hash, carrying the absolute index `i + k` and both CIDs. -/
theorem mem_reconcile_cid :
    ∀ (hs : List String) (i : Nat) (tss : List Int)
      (rs : List CommitmentReceipt) (j : Nat) (h c : String),
      hs.length = rs.length → tss.length = rs.length →
      (VEntry.cidMismatch j h c ∈ reconcile i hs tss rs ↔
        ∃ k r, i + k = j ∧ hs[k]? = some h ∧ rs[k]? = some r ∧
          r.objectCid = c ∧ c ≠ h)
  | [], i, tss, rs, j, h, c, hlen, _ => by
      simp [reconcile]
  | h0 :: hs, i, tss, rs, j, h, c, hlen, hlen2 => by
      cases rs with
      | nil => simp at hlen
      | cons r0 rs =>
        cases tss with
        | nil => simp at hlen2
        | cons t0 tss =>
          simp only [reconcile, List.mem_append, mem_ite_singleton]
          rw [mem_reconcile_cid hs (i + 1) tss rs j h c
            (by simpa using hlen) (by simpa using hlen2)]
          constructor
          · rintro ((⟨hne, heq⟩ | ⟨_, heq⟩) | ⟨k, r, hk, h1, h2, h3, h4⟩)
            · injection heq with e1 e2 e3
              subst e1; subst e2; subst e3
              exact ⟨0, r0, by omega, by simp, by simp, rfl, fun e => hne e⟩
            · exact VEntry.noConfusion heq
            · exact ⟨k + 1, r, by omega, by simpa using h1, by simpa using h2,
                h3, h4⟩
          · rintro ⟨k, r, hk, h1, h2, h3, h4⟩
            cases k with
            | zero =>
              simp only [List.getElem?_cons_zero, Option.some.injEq] at h1 h2
              subst h1; subst h2; subst h3
              left; left
              exact ⟨h4, by simp [show i = j from by omega]⟩
            | succ k =>
              right
              exact ⟨k, r, by omega, by simpa using h1, by simpa using h2,
                h3, h4⟩

/-- Which timestamp-mismatch entries the reconciliation loop started at
index `i` produces: exactly one per position `k` whose receipt timestamp is
strictly below the object timestamp, carrying the absolute index `i + k`
and both timestamps. -/
theorem mem_reconcile_ts :
    ∀ (hs : List String) (i : Nat) (tss : List Int)
      (rs : List CommitmentReceipt) (j : Nat) (t c : Int),
      hs.length = rs.length → tss.length = rs.length →
      (VEntry.timestampMismatch j t c ∈ reconcile i hs tss rs ↔
        ∃ k r, i + k = j ∧ tss[k]? = some t ∧ rs[k]? = some r ∧
          r.timestamp = c ∧ c - t < 0)
  | [], i, tss, rs, j, t, c, hlen, _ => by
      have hrs : rs = [] := by cases rs <;> simp_all
      subst hrs
      simp [reconcile]
  | h0 :: hs, i, tss, rs, j, t, c, hlen, hlen2 => by
      cases rs with
      | nil => simp at hlen
      | cons r0 rs =>
        cases tss with
        | nil => simp at hlen2
        | cons t0 tss =>
          simp only [reconcile, List.mem_append, mem_ite_singleton]
          rw [mem_reconcile_ts hs (i + 1) tss rs j t c
            (by simpa using hlen) (by simpa using hlen2)]
          constructor
          · rintro ((⟨_, heq⟩ | ⟨hlt, heq⟩) | ⟨k, r, hk, h1, h2, h3, h4⟩)
            · exact VEntry.noConfusion heq
            · injection heq with e1 e2 e3
              subst e1; subst e2; subst e3
              exact ⟨0, r0, by omega, by simp, by simp, rfl, hlt⟩
            · exact ⟨k + 1, r, by omega, by simpa using h1, by simpa using h2,
                h3, h4⟩
          · rintro ⟨k, r, hk, h1, h2, h3, h4⟩
            cases k with
            | zero =>
              simp only [List.getElem?_cons_zero, Option.some.injEq] at h1 h2
              subst h1; subst h2; subst h3
              left; right
              exact ⟨h4, by simp [show i = j from by omega]⟩
            | succ k =>
              right
              exact ⟨k, r, by omega, by simpa using h1, by simpa using h2,
                h3, h4⟩

theorem verifyHashes_length (pages : List S3Page)
    (kp : Option (String → Bool)) (store : String → Except String String)
    (getCid : String → String) :
    (verifyHashes pages kp store getCid).length =
      (enumerate_objects pages kp).length := by
  simp [verifyHashes, verifyObjs]

theorem verifyTs_length (pages : List S3Page) (kp : Option (String → Bool)) :
    (verifyTs pages kp).length = (enumerate_objects pages kp).length := by
  simp [verifyTs, verifyObjs]

theorem commitObjs_perm (pages : List S3Page) (kp : Option (String → Bool)) :
    (commitObjs pages kp).Perm (enumerate_objects pages kp) :=
  List.mergeSort_perm _ _

theorem verifyObjs_perm (pages : List S3Page) (kp : Option (String → Bool)) :
    (verifyObjs pages kp).Perm (enumerate_objects pages kp) :=
  List.mergeSort_perm _ _

theorem commitObjs_sorted (pages : List S3Page)
    (kp : Option (String → Bool)) :
    List.Pairwise (fun a b : S3Object => a.key ≤ b.key)
      (commitObjs pages kp) := by
  have h := @List.sorted_mergeSort _ byKey
    (fun a b c hab hbc => by
      simp only [byKey, decide_eq_true_eq] at hab hbc ⊢
      exact le_trans hab hbc)
    (fun a b => by
      simp only [byKey, Bool.or_eq_true, decide_eq_true_eq]
      exact le_total a.key b.key)
    (enumerate_objects pages kp)
  exact h.imp (fun hab => by simpa [byKey] using hab)

theorem verifyObjs_sorted (pages : List S3Page)
    (kp : Option (String → Bool)) :
    List.Pairwise (fun a b : S3Object => a.lastModified ≤ b.lastModified)
      (verifyObjs pages kp) := by
  have h := @List.sorted_mergeSort _ byLastModified
    (fun a b c hab hbc => by
      simp only [byLastModified, decide_eq_true_eq] at hab hbc ⊢
      exact le_trans hab hbc)
    (fun a b => by
      simp only [byLastModified, Bool.or_eq_true, decide_eq_true_eq]
      exact le_total a.lastModified b.lastModified)
    (enumerate_objects pages kp)
  exact h.imp (fun hab => by simpa [byLastModified] using hab)

/-! ### Claim theorems -/

/-- C4: verify on a dataset that was never registered for the calling user
returns status `False` with an empty validation log, for every store
listing, selection, reader, addresser and receipt history — the
short-circuit is independent of all of them. -/
theorem verify_unregistered_short_circuits (pages : List S3Page)
    (kp : Option (String → Bool)) (store : String → Except String String)
    (getCid : String → String) (receipts : List CommitmentReceipt) :
    verify_s3_objects_str false pages kp store getCid receipts =
      (false, []) := by
  simp [verify_s3_objects_str, verify_s3_objects]

/-- C2: whenever the number of enumerated objects differs from the number of
fetched commitment receipts, verify returns status `False` and a log holding
exactly the single entry
`"Mismatched numbers of objects and commitments: objects = N, commitments = M"`
with both counts, and no per-index reconciliation entry. -/
theorem verify_cardinality_mismatch (pages : List S3Page)
    (kp : Option (String → Bool)) (store : String → Except String String)
    (getCid : String → String) (receipts : List CommitmentReceipt)
    (hne : (enumerate_objects pages kp).length ≠ receipts.length) :
    verify_s3_objects_str true pages kp store getCid receipts =
      (false,
        [s!"Mismatched numbers of objects and commitments: objects = {(enumerate_objects pages kp).length}, commitments = {receipts.length}"]) := by
  have hlen := verifyHashes_length pages kp store getCid
  have hne2 : (verifyHashes pages kp store getCid).length ≠ receipts.length :=
    by omega
  simp [verify_s3_objects_str, verify_s3_objects, hne2, renderEntry, hlen,
    hne]

theorem verify_cardinality_mismatch_witness :
    verify_s3_objects_str true
      [⟨some [⟨"a", 0, 1⟩, ⟨"b", 0, 1⟩, ⟨"c", 0, 1⟩]⟩] none
      (fun _ => Except.ok "d") (fun s => s)
      [⟨"u", "x", 0⟩, ⟨"u", "y", 0⟩] =
      (false,
        ["Mismatched numbers of objects and commitments: objects = 3, commitments = 2"]) :=
  verify_cardinality_mismatch _ _ _ _ _ (by decide)

/-- C1: once the cardinality check has passed (`hcard`), the validation log
contains the CID-mismatch entry for index `j` (carrying `j`, the object
hash and the receipt CID) iff the receipt's CID at `j` differs from the
object hash at `j`; and the returned status is `True` iff the log is empty
after all indices are checked. -/
theorem verify_positional_cid_reconciliation (pages : List S3Page)
    (kp : Option (String → Bool)) (store : String → Except String String)
    (getCid : String → String) (receipts : List CommitmentReceipt)
    (hcard : (verifyHashes pages kp store getCid).length = receipts.length) :
    (∀ j h r, (verifyHashes pages kp store getCid)[j]? = some h →
        receipts[j]? = some r →
        (VEntry.cidMismatch j h r.objectCid ∈
            (verify_s3_objects true pages kp store getCid receipts).2 ↔
          r.objectCid ≠ h)) ∧
    ((verify_s3_objects true pages kp store getCid receipts).1 = true ↔
      (verify_s3_objects true pages kp store getCid receipts).2 = []) := by
  have hts : (verifyTs pages kp).length = receipts.length := by
    have h1 := verifyTs_length pages kp
    have h2 := verifyHashes_length pages kp store getCid
    omega
  have hv : verify_s3_objects true pages kp store getCid receipts =
      ((reconcile 0 (verifyHashes pages kp store getCid) (verifyTs pages kp)
          receipts).isEmpty,
        reconcile 0 (verifyHashes pages kp store getCid) (verifyTs pages kp)
          receipts) := by
    simp [verify_s3_objects, hcard]
  constructor
  · intro j h r hh hr
    rw [hv]
    rw [mem_reconcile_cid _ 0 _ _ j h r.objectCid hcard hts]
    constructor
    · rintro ⟨k, r', hk, h1, h2, h3, h4⟩
      exact h4
    · intro hne
      exact ⟨j, r, by omega, hh, hr, rfl, hne⟩
  · rw [hv]
    simp [List.isEmpty_iff]

unseal List.merge List.mergeSort in
theorem verify_positional_cid_reconciliation_witness :
    ((verify_s3_objects true [⟨some [⟨"a", 5, 1⟩]⟩] none
        (fun _ => Except.ok "data") (fun s => String.append "cid-" s)
        [⟨"u", "cid-data", 7⟩]).1 = true ↔
      (verify_s3_objects true [⟨some [⟨"a", 5, 1⟩]⟩] none
        (fun _ => Except.ok "data") (fun s => String.append "cid-" s)
        [⟨"u", "cid-data", 7⟩]).2 = []) :=
  (verify_positional_cid_reconciliation _ _ _ _ _ (by decide)).2

/-- C3: once the cardinality check has passed (`hcard`), the validation log
contains the timestamp-mismatch entry for index `j` iff the receipt's
timestamp at `j` is strictly earlier than the object's last-modified time at
`j`; in particular a receipt timestamp exactly equal to the object's
modification time produces no entry — the boundary is inclusive. -/
theorem verify_timestamp_boundary (pages : List S3Page)
    (kp : Option (String → Bool)) (store : String → Except String String)
    (getCid : String → String) (receipts : List CommitmentReceipt)
    (hcard : (verifyHashes pages kp store getCid).length = receipts.length) :
    (∀ j t r, (verifyTs pages kp)[j]? = some t → receipts[j]? = some r →
        (VEntry.timestampMismatch j t r.timestamp ∈
            (verify_s3_objects true pages kp store getCid receipts).2 ↔
          r.timestamp < t)) ∧
    (∀ j t r, (verifyTs pages kp)[j]? = some t → receipts[j]? = some r →
        r.timestamp = t →
        VEntry.timestampMismatch j t r.timestamp ∉
          (verify_s3_objects true pages kp store getCid receipts).2) := by
  have hts : (verifyTs pages kp).length = receipts.length := by
    have h1 := verifyTs_length pages kp
    have h2 := verifyHashes_length pages kp store getCid
    omega
  have hv : verify_s3_objects true pages kp store getCid receipts =
      ((reconcile 0 (verifyHashes pages kp store getCid) (verifyTs pages kp)
          receipts).isEmpty,
        reconcile 0 (verifyHashes pages kp store getCid) (verifyTs pages kp)
          receipts) := by
    simp [verify_s3_objects, hcard]
  have hmain : ∀ j t r, (verifyTs pages kp)[j]? = some t →
      receipts[j]? = some r →
      (VEntry.timestampMismatch j t r.timestamp ∈
          (verify_s3_objects true pages kp store getCid receipts).2 ↔
        r.timestamp < t) := by
    intro j t r ht hr
    rw [hv]
    rw [mem_reconcile_ts _ 0 _ _ j t r.timestamp hcard hts]
    constructor
    · rintro ⟨k, r', hk, h1, h2, h3, h4⟩
      omega
    · intro hlt
      exact ⟨j, r, by omega, ht, hr, rfl, by omega⟩
  refine ⟨hmain, ?_⟩
  intro j t r ht hr heq
  rw [hmain j t r ht hr]
  omega

unseal List.merge List.mergeSort in
theorem verify_timestamp_boundary_witness :
    VEntry.timestampMismatch 0 5 5 ∉
      (verify_s3_objects true [⟨some [⟨"a", 5, 1⟩]⟩] none
        (fun _ => Except.ok "data") (fun s => String.append "cid-" s)
        [⟨"u", "cid-data", 5⟩]).2 :=
  (verify_timestamp_boundary _ _ _ _ _ (by decide)).2 0 5 ⟨"u", "cid-data", 5⟩
    (by decide) (by decide) rfl

/-- C5: from one and the same filtered listing, the commit pipeline
processes a permutation of it that is sorted lexicographically by key,
while the verify pipeline processes a permutation of it that is sorted by
last-modified timestamp ascending. -/
theorem pipelines_ordering_asymmetry (pages : List S3Page)
    (kp : Option (String → Bool)) :
    (commitObjs pages kp).Perm (enumerate_objects pages kp) ∧
    List.Pairwise (fun a b : S3Object => a.key ≤ b.key)
      (commitObjs pages kp) ∧
    (verifyObjs pages kp).Perm (enumerate_objects pages kp) ∧
    List.Pairwise (fun a b : S3Object => a.lastModified ≤ b.lastModified)
      (verifyObjs pages kp) :=
  ⟨commitObjs_perm pages kp, commitObjs_sorted pages kp,
    verifyObjs_perm pages kp, verifyObjs_sorted pages kp⟩

theorem batches_flatten {α : Type} :
    ∀ (l : List α), (batches l).flatten = l
  | [] => by simp [batches]
  | x :: xs => by
      rw [batches]
      rw [List.flatten_cons]
      rw [batches_flatten ((x :: xs).drop _COMMIT_OBJECT_BATCH_SIZE)]
      exact List.take_append_drop _ _
termination_by l => l.length
decreasing_by simp [_COMMIT_OBJECT_BATCH_SIZE]; omega

theorem batches_length {α : Type} :
    ∀ (l : List α),
      (batches l).length =
        (l.length + (_COMMIT_OBJECT_BATCH_SIZE - 1)) / _COMMIT_OBJECT_BATCH_SIZE
  | [] => by simp [batches, _COMMIT_OBJECT_BATCH_SIZE]
  | x :: xs => by
      rw [batches]
      rw [List.length_cons]
      rw [batches_length ((x :: xs).drop _COMMIT_OBJECT_BATCH_SIZE)]
      simp only [List.length_drop, List.length_cons, _COMMIT_OBJECT_BATCH_SIZE]
      omega
termination_by l => l.length
decreasing_by simp [_COMMIT_OBJECT_BATCH_SIZE]; omega

theorem commit_fold_aux (ledgerWrite : List String → LedgerResult)
    (store : String → Except String String) (getCid : String → String) :
    ∀ (bs : List (List S3Object)) (acc : List CommitmentReceipt × Nat),
      bs.foldl
        (fun acc batch =>
          let object_cids :=
            batch.map (fun o => getCid (read_s3_object store o.key))
          match ledgerWrite object_cids with
          | LedgerResult.ok rs => (acc.1 ++ rs, acc.2 + 1)
          | LedgerResult.error _ => (acc.1, acc.2 + 1))
        acc =
      (acc.1 ++ (bs.map (batchReceipts ledgerWrite store getCid)).flatten,
        acc.2 + bs.length) := by
  intro bs
  induction bs with
  | nil => intro acc; simp
  | cons b bs ih =>
    intro acc
    rw [List.foldl_cons, ih]
    simp only [List.map_cons, List.flatten_cons, List.length_cons]
    unfold batchReceipts
    cases hw : ledgerWrite (b.map fun o => getCid (read_s3_object store o.key)) with
    | ok rs => simp [hw]; omega
    | error e => simp [hw]; omega

/-- The function `commit_s3_object_list` decomposes into independent per-batch
contributions: the receipt list is the concatenation, in batch order, of
each batch's contribution, and exactly one ledger write call is made per
batch. -/
theorem commit_s3_object_list_eq (ledgerWrite : List String → LedgerResult)
    (store : String → Except String String) (getCid : String → String)
    (objs : List S3Object) :
    commit_s3_object_list ledgerWrite store getCid objs =
      (((batches objs).map (batchReceipts ledgerWrite store getCid)).flatten,
        (batches objs).length) := by
  unfold commit_s3_object_list
  rw [commit_fold_aux]
  simp

/-- C6: committing `N` objects in prefix/pattern mode makes exactly
`⌈N / B⌉` ledger batch-write calls (`B = _COMMIT_OBJECT_BATCH_SIZE = 20`),
and when every write succeeds with one receipt per submitted CID the
concatenated receipt list carries exactly one receipt per object, aligned
with the lexicographically key-sorted input sequence. -/
theorem commit_batching (pages : List S3Page) (kp : Option (String → Bool))
    (store : String → Except String String) (getCid : String → String)
    (receiptOf : String → CommitmentReceipt) :
    (∀ ledgerWrite : List String → LedgerResult,
      (commit_s3_object_list ledgerWrite store getCid
          (commitObjs pages kp)).2 =
        ((enumerate_objects pages kp).length +
            (_COMMIT_OBJECT_BATCH_SIZE - 1)) / _COMMIT_OBJECT_BATCH_SIZE) ∧
    (commit_s3_object_list (fun cids => LedgerResult.ok (cids.map receiptOf))
        store getCid (commitObjs pages kp)).1 =
      (commitObjs pages kp).map
        (fun o => receiptOf (getCid (read_s3_object store o.key))) ∧
    List.Pairwise (fun a b : S3Object => a.key ≤ b.key)
      (commitObjs pages kp) := by
  refine ⟨?_, ?_, commitObjs_sorted pages kp⟩
  · intro ledgerWrite
    rw [commit_s3_object_list_eq]
    rw [batches_length]
    have : (commitObjs pages kp).length = (enumerate_objects pages kp).length :=
      by simp [commitObjs]
    rw [this]
  · rw [commit_s3_object_list_eq]
    have hb : ∀ batch, batchReceipts
        (fun cids => LedgerResult.ok (cids.map receiptOf)) store getCid batch =
        batch.map (fun o => receiptOf (getCid (read_s3_object store o.key))) := by
      intro batch
      simp [batchReceipts]
    rw [show batchReceipts
        (fun cids => LedgerResult.ok (cids.map receiptOf)) store getCid =
        (fun batch : List S3Object =>
          batch.map (fun o => receiptOf (getCid (read_s3_object store o.key))))
      from funext hb]
    rw [← List.map_flatten]
    rw [batches_flatten]

/-- C7: for an arbitrary ledger (any mix of successes and raised errors),
the receipt collection is the concatenation, in batch order, of the
per-batch contributions; one ledger call is made per batch so processing
continues past failures; and a batch whose write raised contributes zero
receipts. -/
theorem commit_partial_failure (ledgerWrite : List String → LedgerResult)
    (store : String → Except String String) (getCid : String → String)
    (objs : List S3Object) :
    (commit_s3_object_list ledgerWrite store getCid objs).1 =
      ((batches objs).map (batchReceipts ledgerWrite store getCid)).flatten ∧
    (commit_s3_object_list ledgerWrite store getCid objs).2 =
      (batches objs).length ∧
    (∀ batch ∈ batches objs, ∀ e,
      ledgerWrite (batch.map fun o => getCid (read_s3_object store o.key)) =
          LedgerResult.error e →
        batchReceipts ledgerWrite store getCid batch = []) := by
  rw [commit_s3_object_list_eq]
  refine ⟨rfl, rfl, ?_⟩
  intro batch _ e he
  simp [batchReceipts, he]

unseal batches in
theorem commit_partial_failure_witness :
    batchReceipts (fun _ => LedgerResult.error "boom")
      (fun _ => Except.ok "d") (fun s => s) [⟨"k", 0, 1⟩] = [] :=
  (commit_partial_failure (fun _ => LedgerResult.error "boom")
      (fun _ => Except.ok "d") (fun s => s) [⟨"k", 0, 1⟩]).2.2
    [⟨"k", 0, 1⟩] (by decide) "boom" rfl

theorem mem_get_all_matching_pos (pages : List S3Page) (o : S3Object)
    (ho : o ∈ get_all_matching_objects pages) : 0 < o.size := by
  unfold get_all_matching_objects at ho
  have h := List.mem_filter.mp ho
  simpa using h.2

/-- C8: in every selection mode the enumerated object sequence contains no
zero-size entry, and the same holds for the canonically ordered sequences
each pipeline goes on to address and reconcile. -/
theorem enumerator_filters_zero_size (pages : List S3Page)
    (kp : Option (String → Bool)) :
    (∀ o ∈ enumerate_objects pages kp, o.size ≠ 0) ∧
    (∀ o ∈ commitObjs pages kp, o.size ≠ 0) ∧
    (∀ o ∈ verifyObjs pages kp, o.size ≠ 0) := by
  have base : ∀ o ∈ enumerate_objects pages kp, o.size ≠ 0 := by
    intro o ho
    have hpos : 0 < o.size := by
      cases kp with
      | none =>
          simp only [enumerate_objects] at ho
          exact mem_get_all_matching_pos pages o ho
      | some m =>
          simp only [enumerate_objects] at ho
          exact mem_get_all_matching_pos pages o (List.mem_filter.mp ho).1
    omega
  refine ⟨base, ?_, ?_⟩
  · intro o ho
    exact base o ((commitObjs_perm pages kp).mem_iff.mp ho)
  · intro o ho
    exact base o ((verifyObjs_perm pages kp).mem_iff.mp ho)

theorem enumerator_filters_zero_size_witness :
    (⟨"a", 0, 3⟩ : S3Object).size ≠ 0 :=
  (enumerator_filters_zero_size [⟨some [⟨"a", 0, 3⟩, ⟨"b", 0, 0⟩]⟩] none).1
    ⟨"a", 0, 3⟩ (by decide)

unseal batches in
theorem batches_singleton {α : Type} (x : α) : batches [x] = [[x]] := rfl

/-- C9 counterexample: a store whose fetch/decode raises is not fatal — the
exception is caught, `read_s3_object` returns the empty string, and the
commit pipeline proceeds to content-address that empty string and obtains a
ledger receipt for its CID. -/
theorem read_failure_silently_addressed_cx :
    read_s3_object (fun _ => Except.error "AccessDenied") "key1" = "" ∧
    (commit_s3_object_list
        (fun cids => LedgerResult.ok (cids.map fun c => ⟨"u", c, 0⟩))
        (fun _ => Except.error "AccessDenied")
        (fun s => String.append "cid-" s) [⟨"key1", 0, 5⟩]).1 =
      [⟨"u", "cid-", 0⟩] := by
  refine ⟨rfl, ?_⟩
  rw [commit_s3_object_list_eq, batches_singleton]
  simp only [List.map_cons, List.map_nil, List.flatten_cons, List.flatten_nil,
    List.append_nil, batchReceipts, read_s3_object]
  rfl

/-- C9 (amended): a store-access or decoding failure during an object read
is caught and logged rather than aborting the operation: `read_s3_object`
returns the empty string, and the pipeline content-addresses that empty
string like ordinary content. -/
theorem read_failure_returns_empty_addressed
    (store : String → Except String String) (key e : String)
    (hfail : store key = Except.error e) (getCid : String → String)
    (lastMod : Int) (size : Nat) (receiptOf : String → CommitmentReceipt) :
    read_s3_object store key = "" ∧
    (commit_s3_object_list (fun cids => LedgerResult.ok (cids.map receiptOf))
        store getCid [⟨key, lastMod, size⟩]).1 = [receiptOf (getCid "")] := by
  constructor
  · unfold read_s3_object
    rw [hfail]
  · rw [commit_s3_object_list_eq, batches_singleton]
    simp [batchReceipts, read_s3_object, hfail]

theorem read_failure_returns_empty_addressed_witness :
    read_s3_object (fun _ => Except.error "denied") "k" = "" ∧
    (commit_s3_object_list
        (fun cids => LedgerResult.ok (cids.map fun c => ⟨"u", c, 1⟩))
        (fun _ => Except.error "denied") (fun s => s) [⟨"k", 2, 3⟩]).1 =
      [⟨"u", "", 1⟩] :=
  read_failure_returns_empty_addressed _ "k" "denied" rfl _ 2 3 _

/-- C10: the final summary of `commit_s3_objects` evaluates
`commitment_receipts[0]["user"]`, so the function raises instead of
returning the receipts whenever the accumulated receipt list is empty
(prefix/pattern matched nothing or every batch write failed — IndexError),
and in single-key mode whenever the ledger write failed, since the empty
dict appended for the failed write has no `"user"` field (KeyError). -/
theorem commit_summary_crashes (ledgerWrite : List String → LedgerResult)
    (store : String → Except String String) (getCid : String → String) :
    (∀ pages kp,
      (commit_s3_object_list ledgerWrite store getCid
          (commitObjs pages kp)).1 = [] →
      commit_s3_objects (CommitSelection.multi pages kp) ledgerWrite store
          getCid = Except.error PyError.indexError) ∧
    (∀ e, commit_s3_objects (CommitSelection.single (Except.error e))
        ledgerWrite store getCid =
      Except.error (PyError.keyError "user")) := by
  constructor
  · intro pages kp hempty
    simp [commit_s3_objects, hempty]
  · intro e
    simp [commit_s3_objects]

unseal List.merge List.mergeSort batches in
theorem commit_summary_crashes_witness :
    commit_s3_objects (CommitSelection.multi [] none)
        (fun _ => LedgerResult.error "x") (fun _ => Except.ok "d")
        (fun s => s) = Except.error PyError.indexError ∧
    commit_s3_objects (CommitSelection.single (Except.error "boom"))
        (fun _ => LedgerResult.error "x") (fun _ => Except.ok "d")
        (fun s => s) = Except.error (PyError.keyError "user") :=
  ⟨(commit_summary_crashes _ _ _).1 [] none (by decide),
    (commit_summary_crashes _ _ _).2 "boom"⟩

end VBaseTools
